import Mathlib

/-!
# Verification of the SAM.gov contract-opportunities scraper

Shallow embedding of `src/scraper.py`.  Python strings become `String`,
Python `None`-able values become `Option String` (`none` models an absent
key or a JSON `null`), Python lists become `List`, and the pandas tables
become `List Record`.  Python truthiness on strings (`if s:`) is modelled
by testing emptiness of the underlying string.
-/

set_option maxRecDepth 4000

namespace SamScraper

/-- Python string slicing `s[:n]`: the first `n` characters of `s`.
Defined by character-list truncation so it evaluates by structural
recursion; `strSlice_eq_take` shows it coincides with `String.take`. -/
def strSlice (s : String) (n : Nat) : String := ⟨s.data.take n⟩

theorem strSlice_eq_take (s : String) (n : Nat) : strSlice s n = s.take n :=
  (String.take_eq s n).symm

theorem strSlice_data (s : String) (n : Nat) : (strSlice s n).data = s.data.take n := rfl

theorem strSlice_length (s : String) (n : Nat) :
    (strSlice s n).length = min n s.length := by
  show (s.data.take n).length = min n s.length
  rw [List.length_take, String.length_data]

theorem strSlice_of_le (s : String) (n : Nat) (h : s.length ≤ n) : strSlice s n = s := by
  show (⟨s.data.take n⟩ : String) = s
  rw [List.take_of_length_le (by rw [String.length_data]; exact h)]

/-- One raw opportunity object from the JSON response
(`opportunitiesData` entries).  Every field is read with `opp.get(key)`
in the source, which yields `None` when the key is absent; `description`
is read with `opp.get("description", "")`, so `none` models an absent
key there. -/
structure Opp where
  noticeId : Option String := none
  title : Option String := none
  department : Option String := none
  subTier : Option String := none
  office : Option String := none
  postedDate : Option String := none
  responseDeadLine : Option String := none
  type : Option String := none
  typeOfSetAside : Option String := none
  naicsCode : Option String := none
  classificationCode : Option String := none
  active : Option String := none
  description : Option String := none
deriving DecidableEq, Repr

/-- One decoded page of the remote response: `totalRecords` (read with
`data.get("totalRecords", 0)`) and `opportunitiesData` (read with
`data.get("opportunitiesData", [])`). -/
structure Page where
  totalRecords : Nat := 0
  opportunitiesData : List Opp := []
deriving DecidableEq, Repr

/-- One flattened Opportunity Record, mirroring the dict literal built in
`extract_records` (scraper.py lines 83–98). -/
structure Record where
  notice_id : Option String
  title : Option String
  department : Option String
  sub_tier : Option String
  office : Option String
  posted_date : Option String
  response_deadline : Option String
  notice_type : Option String
  set_aside : Option String
  naics_code : Option String
  classification_code : Option String
  active : Option String
  description : String
  link : String
deriving DecidableEq, Repr

/-- Flattening of one raw entry, exactly the dict built per `opp` in
`extract_records`: plain `opp.get` fields are copied, the description is
`opp.get("description", "")[:500]`, and the link is
`f"https://sam.gov/opp/{opp.get('noticeId')}/view" if opp.get("noticeId") else ""`
(Python truthiness: `None` and `""` both take the `else` branch). -/
def extractRecord (opp : Opp) : Record :=
  { notice_id := opp.noticeId
    title := opp.title
    department := opp.department
    sub_tier := opp.subTier
    office := opp.office
    posted_date := opp.postedDate
    response_deadline := opp.responseDeadLine
    notice_type := opp.type
    set_aside := opp.typeOfSetAside
    naics_code := opp.naicsCode
    classification_code := opp.classificationCode
    active := opp.active
    description := strSlice (opp.description.getD "") 500
    link :=
      match opp.noticeId with
      | some nid => if nid = "" then "" else "https://sam.gov/opp/" ++ nid ++ "/view"
      | none => "" }

/-- `extract_records` (scraper.py lines 79–99): flatten a page response
into a list of records, one per entry, preserving order. -/
def extract_records (data : Page) : List Record :=
  data.opportunitiesData.map extractRecord

/-- A civil (Gregorian) calendar date, as rendered by `datetime`. -/
structure Date where
  year : Int
  month : Nat
  day : Nat
deriving DecidableEq, Repr

/-- Gregorian date of a day count (days since 1970-01-01, negative for
earlier days): the standard civil-from-days conversion implemented by
`datetime.date`/`strftime`. -/
def civilFromDays (z : Int) : Date :=
  let z' := z + 719468
  let era : Int := (if 0 ≤ z' then z' else z' - 146096) / 146097
  let doe : Nat := (z' - era * 146097).toNat
  let yoe : Nat := (doe - doe / 1460 + doe / 36524 - doe / 146096) / 365
  let y : Int := (yoe : Int) + era * 400
  let doy : Nat := doe - (365 * yoe + yoe / 4 - yoe / 100)
  let mp : Nat := (5 * doy + 2) / 153
  let d : Nat := doy - (153 * mp + 2) / 5 + 1
  let m : Nat := if mp < 10 then mp + 3 else mp - 9
  { year := if m ≤ 2 then y + 1 else y, month := m, day := d }

/-- Zero-padding to width `w`, as `strftime` does for numeric fields. -/
def pad (w : Nat) (n : Nat) : String :=
  let s := toString n
  if s.length < w then ⟨List.replicate (w - s.length) '0'⟩ ++ s else s

/-- `strftime("%m/%d/%Y")`: zero-padded month and day, slash-separated,
then the year. -/
def formatDate (d : Date) : String :=
  pad 2 d.month ++ "/" ++ pad 2 d.day ++ "/" ++ toString d.year

/-- Python `x or d` for an optional string (`None` and `""` are falsy). -/
def pyOr (x : Option String) (d : String) : String :=
  match x with
  | some s => if s = "" then d else s
  | none => d

/-- Python `if x:` guard for an optional string (`None` and `""` are falsy). -/
def pyTruthy (x : Option String) : Bool :=
  match x with
  | some s => s != ""
  | none => false

/-- The keyword arguments of `scrape` (scraper.py line 102): one Search
Profile. -/
structure Profile where
  keyword : Option String := none
  naics_code : Option String := none
  notice_type : Option String := none
  set_aside : Option String := none
  days_back : Nat := 30
  max_results : Nat := 500
deriving DecidableEq, Repr

/-- The keyword arguments of `search_opportunities` (lines 29–38). -/
structure Query where
  keyword : Option String := none
  naics_code : Option String := none
  posted_from : Option String := none
  posted_to : Option String := none
  set_aside : Option String := none
  notice_type : Option String := none
  limit : Nat := 100
  offset : Nat := 0
deriving DecidableEq, Repr

/-- The query-parameter mapping built in `search_opportunities`
(lines 57–72).  An optional filter is `none` exactly when the
corresponding key is not inserted into the dict. -/
structure Params where
  api_key : String
  limit : Nat
  offset : Nat
  postedFrom : String
  postedTo : String
  keyword : Option String := none
  ncode : Option String := none
  typeOfSetAside : Option String := none
  ptype : Option String := none
deriving DecidableEq, Repr

/-- The `params` dict of `search_opportunities` (lines 57–72), given the
credential string and the current day `today` (a day count).  The date
defaults mirror lines 61–62: `posted_from or (now - timedelta(days=30))`
and `posted_to or now`, with Python `or` on strings. -/
def buildParams (api_key : String) (today : Int) (q : Query) : Params :=
  { api_key := api_key
    limit := q.limit
    offset := q.offset
    postedFrom := pyOr q.posted_from (formatDate (civilFromDays (today - 30)))
    postedTo := pyOr q.posted_to (formatDate (civilFromDays today))
    keyword := if pyTruthy q.keyword then q.keyword else none
    ncode := if pyTruthy q.naics_code then q.naics_code else none
    typeOfSetAside := if pyTruthy q.set_aside then q.set_aside else none
    ptype := if pyTruthy q.notice_type then q.notice_type else none }

/-- Errors surfaced by `search_opportunities`: the `ValueError` raised on
a missing credential (lines 52–55). -/
inductive SamError where
  | valueError (msg : String)
deriving DecidableEq, Repr

/-- `search_opportunities` (lines 29–76).  The module-level `API_KEY`
(from `os.getenv`, so `None` or a string) is passed in; the network is a
function from the sent parameter mapping to the decoded JSON body, and
the second component records every request actually issued (an empty
list means no network activity).  `if not API_KEY: raise ValueError(...)`
(line 52) runs before the params dict is built and before `requests.get`
(line 74). -/
def search_opportunities (API_KEY : Option String) (today : Int) (q : Query)
    (network : Params → Page) : Except SamError Page × List Params :=
  if API_KEY.getD "" = "" then
    (.error (.valueError
      "SAM_API_KEY not set. Get one at https://sam.gov/content/entity-registration"), [])
  else
    let params := buildParams (API_KEY.getD "") today q
    (.ok (network params), [params])

/-- `page_size` set at scraper.py line 110. -/
def page_size : Nat := 100

/-- The query sent by `scrape` at a given offset (lines 116–125), with
the date window computed at lines 105–106 from the current day and
`days_back`. -/
def scrapeQuery (p : Profile) (today : Int) (offset : Nat) : Query :=
  { keyword := p.keyword
    naics_code := p.naics_code
    posted_from := some (formatDate (civilFromDays (today - (p.days_back : Int))))
    posted_to := some (formatDate (civilFromDays today))
    set_aside := p.set_aside
    notice_type := p.notice_type
    limit := page_size
    offset := offset }

/-- The `while offset < max_results` loop of `scrape` (lines 115–140),
run against a backend mapping each offset to the page the (successful)
fetch decodes there; a fetch failure would propagate out of the loop
uncaught and is outside the scope of the loop claims.  The first `Nat`
argument is fuel; the remaining state is `offset`, `all_records` and
the list of offsets fetched so far.  Per iteration, in source order:
stop if `offset ≥ max_results`; fetch; stop if the page's records are
empty; extend the accumulator and advance `offset` by `page_size`; stop
if the new offset reaches `totalRecords`; otherwise continue. -/
def scrapeLoop (backend : Nat → Page) (max_results : Nat) :
    Nat → Nat → List Record → List Nat → List Record × List Nat
  | 0, _, all_records, fetched => (all_records, fetched)
  | fuel + 1, offset, all_records, fetched =>
    if offset < max_results then
      let data := backend offset
      let total := data.totalRecords
      let records := extract_records data
      if records.isEmpty then (all_records, fetched ++ [offset])
      else
        let acc := all_records ++ records
        let offset' := offset + page_size
        if total ≤ offset' then (acc, fetched ++ [offset])
        else scrapeLoop backend max_results fuel offset' acc (fetched ++ [offset])
    else (all_records, fetched)

/-- `scrape` (lines 102–156) against a backend: the loop starts at
offset 0 with an empty accumulator.  Fuel `max_results + 1` is never
exhausted: the loop only continues while `offset < max_results`, and
`offset` grows by `page_size = 100 ≥ 1` each iteration. -/
def scrape (backend : Nat → Page) (max_results : Nat) : List Record × List Nat :=
  scrapeLoop backend max_results (max_results + 1) 0 [] []

/-- The records `scrape` accumulates (the rows of the profile's table). -/
def scrapeRecords (backend : Nat → Page) (max_results : Nat) : List Record :=
  (scrape backend max_results).1

/-- The offsets at which `scrape` issued a fetch, in order. -/
def scrapeFetches (backend : Nat → Page) (max_results : Nat) : List Nat :=
  (scrape backend max_results).2

/-- `DataFrame.drop_duplicates(subset="notice_id")`: keep each record
whose notice identifier value has not been seen yet (pandas treats
missing values as equal to one another, so `none` is one key value). -/
def dropDupsBy : List Record → List (Option String) → List Record
  | [], _ => []
  | r :: rs, seen =>
    if r.notice_id ∈ seen then dropDupsBy rs seen
    else r :: dropDupsBy rs (r.notice_id :: seen)

/-- `combined.drop_duplicates(subset="notice_id")` (line 211). -/
def drop_duplicates (rs : List Record) : List Record := dropDupsBy rs []

/-- Lines 210–211 of the orchestrator:
`pd.concat([df for df in all_dfs if not df.empty], ignore_index=True)`
followed by `drop_duplicates(subset="notice_id")`.  `pd.concat` applied
to an empty list raises `ValueError("No objects to concatenate")`,
modelled by the error case. -/
def combineTables (all_dfs : List (List Record)) : Except String (List Record) :=
  let nonempty := all_dfs.filter (fun df => !df.isEmpty)
  if nonempty.isEmpty then .error "No objects to concatenate"
  else .ok (drop_duplicates nonempty.flatten)

/-! ## Basic facts about the embedded definitions -/

theorem formatDate_ne_empty (d : Date) : formatDate d ≠ "" := by
  intro h
  have hd := congrArg String.data h
  simp [formatDate, String.data_append] at hd

theorem extract_records_eq_nil (data : Page) :
    extract_records data = [] ↔ data.opportunitiesData = [] := by
  simp [extract_records]

/-! ## C5: derived detail link -/

/-- **C5 counterexample**: the claim "if a notice identifier `id` is
present, the link equals `https://sam.gov/opp/<id>/view`" fails on the
entry whose `noticeId` is present but equal to `""`: Python truthiness
sends it to the `else ""` branch, so the link is empty, not
`"https://sam.gov/opp//view"`. -/
theorem link_spec_counterexample :
    ¬ ∀ (opp : Opp) (nid : String), opp.noticeId = some nid →
        (extractRecord opp).link = "https://sam.gov/opp/" ++ nid ++ "/view" := by
  intro h
  have h0 := h { noticeId := some "" } "" rfl
  exact absurd h0 (by decide)

/-- **C5 (amended)**: an absent, null, or empty notice identifier yields
an empty derived link; a present non-empty identifier `nid` yields the
link `"https://sam.gov/opp/" ++ nid ++ "/view"`. -/
theorem link_amended (opp : Opp) :
    ((opp.noticeId = none ∨ opp.noticeId = some "") → (extractRecord opp).link = "") ∧
    (∀ nid, opp.noticeId = some nid → nid ≠ "" →
      (extractRecord opp).link = "https://sam.gov/opp/" ++ nid ++ "/view") := by
  constructor
  · rintro (h | h) <;> simp [extractRecord, h]
  · intro nid h hne
    simp [extractRecord, h, hne]

/-- Witness for `link_amended` at concrete entries. -/
theorem link_amended_witness :
    (extractRecord { noticeId := some "N1" }).link = "https://sam.gov/opp/N1/view" ∧
    (extractRecord { noticeId := none }).link = "" :=
  ⟨(link_amended { noticeId := some "N1" }).2 "N1" rfl (by decide),
   (link_amended { noticeId := none }).1 (Or.inl rfl)⟩

/-! ## C6: description truncation -/

/-- **C6**: for a present description longer than 500 characters the
output has length exactly 500 and is the input's first 500 characters;
for a present description of length at most 500 the output equals the
input; for an absent description the output is `""`.  (`extractRecord`
is a total Lean function, so extraction never errors in any case.) -/
theorem description_truncation (opp : Opp) :
    (∀ s, opp.description = some s →
      (500 < s.length →
        (extractRecord opp).description.length = 500 ∧
        (extractRecord opp).description = strSlice s 500) ∧
      (s.length ≤ 500 → (extractRecord opp).description = s)) ∧
    (opp.description = none → (extractRecord opp).description = "") := by
  refine ⟨fun s hs => ⟨fun hlong => ⟨?_, ?_⟩, fun hshort => ?_⟩, fun hnone => ?_⟩
  · show (strSlice (opp.description.getD "") 500).length = 500
    rw [hs]
    show (strSlice s 500).length = 500
    rw [strSlice_length]
    omega
  · show strSlice (opp.description.getD "") 500 = strSlice s 500
    rw [hs]
    rfl
  · show strSlice (opp.description.getD "") 500 = s
    rw [hs]
    exact strSlice_of_le s 500 hshort
  · show strSlice (opp.description.getD "") 500 = ""
    rw [hnone]
    rfl

/-- A 501-character description, for the truncation witness. -/
def longDesc : String := ⟨List.replicate 501 'a'⟩

/-- Witness for `description_truncation` at concrete entries. -/
theorem description_truncation_witness :
    (extractRecord { description := some longDesc }).description.length = 500 ∧
    (extractRecord { description := some "abc" }).description = "abc" ∧
    (extractRecord {}).description = "" :=
  ⟨(((description_truncation { description := some longDesc }).1 longDesc rfl).1
      (by decide)).1,
   ((description_truncation { description := some "abc" }).1 "abc" rfl).2 (by decide),
   (description_truncation {}).2 rfl⟩

/-! ## C7: missing credential fails before any network activity -/

/-- **C7**: with the credential absent, every call to
`search_opportunities` — whatever the filter arguments and whatever the
network would answer — returns the configuration `ValueError` and issues
no request (its request log is empty). -/
theorem missing_key_fails_fast (today : Int) (q : Query) (network : Params → Page) :
    (search_opportunities none today q network).1 =
      .error (.valueError
        "SAM_API_KEY not set. Get one at https://sam.gov/content/entity-registration") ∧
    (search_opportunities none today q network).2 = [] := by
  constructor <;> rfl

/-! ## C8: default date window -/

/-- **C8**: for every Search Profile (`scrape` accepts no explicit date
bounds), the request parameters sent at any offset carry
`postedFrom = strftime("%m/%d/%Y")` of today minus `days_back` days and
`postedTo` of today. -/
theorem date_window (p : Profile) (today : Int) (key : String) (offset : Nat) :
    (buildParams key today (scrapeQuery p today offset)).postedFrom =
      formatDate (civilFromDays (today - (p.days_back : Int))) ∧
    (buildParams key today (scrapeQuery p today offset)).postedTo =
      formatDate (civilFromDays today) := by
  constructor <;> simp [buildParams, scrapeQuery, pyOr, formatDate_ne_empty]

/-! ## Unfolding lemmas for the pagination loop -/

theorem scrapeLoop_stop (backend : Nat → Page) (max_results fuel offset : Nat)
    (all_records : List Record) (fetched : List Nat) (h : ¬ offset < max_results) :
    scrapeLoop backend max_results (fuel + 1) offset all_records fetched =
      (all_records, fetched) := by
  simp [scrapeLoop, h]

theorem scrapeLoop_step_empty (backend : Nat → Page) (max_results fuel offset : Nat)
    (all_records : List Record) (fetched : List Nat) (hlt : offset < max_results)
    (hemp : (extract_records (backend offset)).isEmpty = true) :
    scrapeLoop backend max_results (fuel + 1) offset all_records fetched =
      (all_records, fetched ++ [offset]) := by
  simp [scrapeLoop, hlt, hemp]

theorem scrapeLoop_step_exhaust (backend : Nat → Page) (max_results fuel offset : Nat)
    (all_records : List Record) (fetched : List Nat) (hlt : offset < max_results)
    (hne : (extract_records (backend offset)).isEmpty = false)
    (htot : (backend offset).totalRecords ≤ offset + page_size) :
    scrapeLoop backend max_results (fuel + 1) offset all_records fetched =
      (all_records ++ extract_records (backend offset), fetched ++ [offset]) := by
  simp [scrapeLoop, hlt, hne, htot]

theorem scrapeLoop_step_continue (backend : Nat → Page) (max_results fuel offset : Nat)
    (all_records : List Record) (fetched : List Nat) (hlt : offset < max_results)
    (hne : (extract_records (backend offset)).isEmpty = false)
    (htot : ¬ (backend offset).totalRecords ≤ offset + page_size) :
    scrapeLoop backend max_results (fuel + 1) offset all_records fetched =
      scrapeLoop backend max_results fuel (offset + page_size)
        (all_records ++ extract_records (backend offset)) (fetched ++ [offset]) := by
  simp [scrapeLoop, hlt, hne, htot]

/-! ## C1: pagination termination -/

/-- **C1**: against a backend reporting `totalRecords = 250` and serving
non-empty pages at offsets 0, 100 and 200, the loop fetches exactly at
offsets 0, 100, 200 when `max_results ≥ 250` (the third advance reaches
`offset = 300 ≥ 250 = total`), and exactly once at offset 0 when
`max_results = 50` (the advance to 100 fails `offset < max_results`). -/
theorem pagination_termination (backend : Nat → Page) (max_results : Nat)
    (h0t : (backend 0).totalRecords = 250) (h0n : (backend 0).opportunitiesData ≠ [])
    (h1t : (backend 100).totalRecords = 250) (h1n : (backend 100).opportunitiesData ≠ [])
    (h2t : (backend 200).totalRecords = 250) (h2n : (backend 200).opportunitiesData ≠ [])
    (hmax : 250 ≤ max_results) :
    scrapeFetches backend max_results = [0, 100, 200] ∧
    scrapeFetches backend 50 = [0] := by
  have e0 : (extract_records (backend 0)).isEmpty = false :=
    List.isEmpty_eq_false.mpr fun h => h0n ((extract_records_eq_nil _).mp h)
  have e1 : (extract_records (backend 100)).isEmpty = false :=
    List.isEmpty_eq_false.mpr fun h => h1n ((extract_records_eq_nil _).mp h)
  have e2 : (extract_records (backend 200)).isEmpty = false :=
    List.isEmpty_eq_false.mpr fun h => h2n ((extract_records_eq_nil _).mp h)
  constructor
  · obtain ⟨m, rfl⟩ := Nat.exists_eq_add_of_le hmax
    show (scrapeLoop backend (250 + m) (250 + m + 1) 0 [] []).2 = [0, 100, 200]
    rw [scrapeLoop_step_continue backend (250 + m) (250 + m) 0 [] [] (by omega) e0
      (by rw [h0t]; norm_num [page_size])]
    norm_num only [page_size, List.nil_append]
    rw [show (250 + m : Nat) = 249 + m + 1 by omega]
    rw [scrapeLoop_step_continue backend _ (249 + m) 100 _ _ (by omega) e1
      (by rw [h1t]; norm_num [page_size])]
    norm_num only [page_size, List.singleton_append]
    rw [show (249 + m : Nat) = 248 + m + 1 by omega]
    rw [scrapeLoop_step_exhaust backend _ (248 + m) 200 _ _ (by omega) e2
      (by rw [h2t]; norm_num [page_size])]
    rfl
  · show (scrapeLoop backend 50 (50 + 1) 0 [] []).2 = [0]
    rw [scrapeLoop_step_continue backend 50 50 0 [] [] (by norm_num) e0
      (by rw [h0t]; norm_num [page_size])]
    rw [show (50 : Nat) = 49 + 1 from rfl]
    rw [scrapeLoop_stop backend (49 + 1) 49 (0 + page_size) _ _ (by norm_num [page_size])]
    rfl

/-- A mock backend reporting `totalRecords = 250` with one record per page. -/
def backendC1 : Nat → Page := fun _ =>
  { totalRecords := 250, opportunitiesData := [{ noticeId := some "W" }] }

/-- Witness for `pagination_termination` at the mock backend `backendC1`. -/
theorem pagination_termination_witness :
    scrapeFetches backendC1 250 = [0, 100, 200] ∧ scrapeFetches backendC1 50 = [0] :=
  ⟨(pagination_termination backendC1 250 rfl (by decide) rfl (by decide) rfl (by decide)
      (by norm_num)).1,
   (pagination_termination backendC1 250 rfl (by decide) rfl (by decide) rfl (by decide)
      (by norm_num)).2⟩

/-! ## C2: end-to-end scenario with two records at offset 0 -/

/-- The entry with `noticeId = "N1"`. -/
def oppN1 : Opp := { noticeId := some "N1" }

/-- The entry whose `noticeId` is absent (`None`). -/
def oppAnon : Opp := {}

/-- The mock page at offset 0: `totalRecords = 2`, two entries. -/
def page2 : Page := { totalRecords := 2, opportunitiesData := [oppN1, oppAnon] }

/-- **C2**: when the backend answers offset 0 with `page2`
(`totalRecords = 2`, entries `N1` and identifier-less), `scrape` with its
default `max_results = 500` fetches exactly once (at offset 0) — the page
is non-empty, but the advanced offset 100 reaches `totalRecords = 2` —
and the resulting table has exactly the 2 rows, the second with an empty
link. -/
theorem end_to_end (backend : Nat → Page) (h : backend 0 = page2) :
    scrapeFetches backend 500 = [0] ∧
    scrapeRecords backend 500 = [extractRecord oppN1, extractRecord oppAnon] ∧
    (scrapeRecords backend 500).length = 2 ∧
    (extractRecord oppAnon).link = "" := by
  have hrec : extract_records (backend 0) = [extractRecord oppN1, extractRecord oppAnon] := by
    rw [h]; rfl
  have hstep := scrapeLoop_step_exhaust backend 500 500 0 [] [] (by norm_num)
    (by rw [hrec]; rfl) (by rw [h]; decide)
  refine ⟨?_, ?_, ?_, by decide⟩
  · show (scrapeLoop backend 500 (500 + 1) 0 [] []).2 = [0]
    rw [hstep]
    rfl
  · show (scrapeLoop backend 500 (500 + 1) 0 [] []).1 = _
    rw [hstep, hrec]
    rfl
  · show (scrapeLoop backend 500 (500 + 1) 0 [] []).1.length = 2
    rw [hstep, hrec]
    rfl

/-- Witness for `end_to_end` at the constant mock backend. -/
theorem end_to_end_witness :
    scrapeFetches (fun _ => page2) 500 = [0] ∧
    (scrapeRecords (fun _ => page2) 500).length = 2 :=
  ⟨(end_to_end (fun _ => page2) rfl).1, (end_to_end (fun _ => page2) rfl).2.2.1⟩

/-! ## C3: a run finding zero opportunities -/

/-- **C3 (code bug)**: each profile that finds nothing yields an empty
table (`scrape` returns an empty frame at lines 142–144, after printing
a notice), but the orchestrator then evaluates
`pd.concat([df for df in all_dfs if not df.empty])` (line 210) on an
empty list, which raises `ValueError: No objects to concatenate` — the
run aborts before the `"No opportunities found."` summary at line 228
can print, contradicting the spec's empty-result design and the code's
own final `else` branch. -/
theorem all_empty_aborts :
    scrapeRecords (fun _ => { totalRecords := 0, opportunitiesData := [] }) 100 = [] ∧
    combineTables (List.replicate 6 []) = .error "No objects to concatenate" := by
  exact ⟨rfl, rfl⟩

/-! ## C9: the result cap does not truncate the accumulator -/

/-- Loop invariant: the loop only appends — the final fetch log is the
incoming log extended by some list `new` of offsets, and the final
accumulator is the incoming accumulator extended by exactly the
flattened extracted pages of those offsets. -/
theorem scrapeLoop_spec (backend : Nat → Page) (max_results : Nat) :
    ∀ (fuel offset : Nat) (all_records : List Record) (fetched : List Nat),
      ∃ new : List Nat,
        (scrapeLoop backend max_results fuel offset all_records fetched).2 =
          fetched ++ new ∧
        (scrapeLoop backend max_results fuel offset all_records fetched).1 =
          all_records ++ (new.map fun o => extract_records (backend o)).flatten := by
  intro fuel
  induction fuel with
  | zero =>
    intro offset acc f
    exact ⟨[], by simp [scrapeLoop], by simp [scrapeLoop]⟩
  | succ n ih =>
    intro offset acc f
    by_cases hlt : offset < max_results
    · by_cases hemp : (extract_records (backend offset)).isEmpty = true
      · refine ⟨[offset], ?_, ?_⟩
        · rw [scrapeLoop_step_empty backend max_results n offset acc f hlt hemp]
        · rw [scrapeLoop_step_empty backend max_results n offset acc f hlt hemp]
          have hnil : extract_records (backend offset) = [] := List.isEmpty_eq_true.mp hemp
          simp [hnil]
      · have hne : (extract_records (backend offset)).isEmpty = false := by
          simpa using hemp
        by_cases htot : (backend offset).totalRecords ≤ offset + page_size
        · refine ⟨[offset], ?_, ?_⟩
          · rw [scrapeLoop_step_exhaust backend max_results n offset acc f hlt hne htot]
          · rw [scrapeLoop_step_exhaust backend max_results n offset acc f hlt hne htot]
            simp
        · obtain ⟨new, hfet, hrec⟩ :=
            ih (offset + page_size) (acc ++ extract_records (backend offset)) (f ++ [offset])
          refine ⟨offset :: new, ?_, ?_⟩
          · rw [scrapeLoop_step_continue backend max_results n offset acc f hlt hne htot,
              hfet]
            simp
          · rw [scrapeLoop_step_continue backend max_results n offset acc f hlt hne htot,
              hrec]
            simp
    · exact ⟨[], by rw [scrapeLoop_stop backend max_results n offset acc f hlt]; simp,
        by rw [scrapeLoop_stop backend max_results n offset acc f hlt]; simp⟩

/-- The table `scrape` returns is exactly the concatenation, in order,
of the extracted pages of all fetched offsets. -/
theorem scrape_records_eq (backend : Nat → Page) (max_results : Nat) :
    scrapeRecords backend max_results =
      ((scrapeFetches backend max_results).map fun o => extract_records (backend o)).flatten := by
  obtain ⟨new, hfet, hrec⟩ := scrapeLoop_spec backend max_results (max_results + 1) 0 [] []
  have h2 : scrapeFetches backend max_results = new := by
    show (scrapeLoop backend max_results (max_results + 1) 0 [] []).2 = new
    rw [hfet]; rfl
  show (scrapeLoop backend max_results (max_results + 1) 0 [] []).1 = _
  rw [hrec, h2]
  rfl

/-- A featureless raw entry. -/
def oppStub : Opp := {}

/-- Mock backend for the C9 counterexample: one record per page except
51 records at offset 200; `totalRecords` large so pages keep coming. -/
def backendCex : Nat → Page := fun o =>
  if o = 200 then { totalRecords := 1000, opportunitiesData := List.replicate 51 oppStub }
  else { totalRecords := 1000, opportunitiesData := [oppStub] }

/-- Mock backend serving a 100-record first page. -/
def backendBig : Nat → Page := fun _ =>
  { totalRecords := 150, opportunitiesData := List.replicate 100 oppStub }

/-- **C9 counterexample**: the claim as stated — whenever a page at an
admissible (fetched) offset holds more records than `max_results` minus
that offset, the final length exceeds `max_results` — fails.  At
`max_results = 250` against `backendCex` (one record per page except 51
records at offset 200), offset 200 is fetched and its page holds
`51 > 250 - 200` records, yet only `1 + 1 + 51 = 53 ≤ 250` records
accumulate. -/
theorem cap_overshoot_counterexample :
    ¬ ∀ (backend : Nat → Page) (max_results i : Nat)
        (hi : i < (scrapeFetches backend max_results).length),
        max_results - (scrapeFetches backend max_results).get ⟨i, hi⟩ <
          (extract_records
            (backend ((scrapeFetches backend max_results).get ⟨i, hi⟩))).length →
        max_results < (scrapeRecords backend max_results).length := by
  intro h
  have hc := h backendCex 250 2 (by decide) (by decide)
  exact absurd hc (by decide)

/-- **C9 (amended)**: the final table is never truncated — it is exactly
the concatenation of all fetched pages — so whenever the page at an
admissible (fetched) offset holds more records than `max_results` minus
the number of records accumulated before that page, the final length
exceeds `max_results`. -/
theorem cap_overshoot (backend : Nat → Page) (max_results : Nat) :
    scrapeRecords backend max_results =
      ((scrapeFetches backend max_results).map fun o => extract_records (backend o)).flatten ∧
    ∀ i (hi : i < (scrapeFetches backend max_results).length),
      max_results -
          (((scrapeFetches backend max_results).take i).map
            (fun o => (extract_records (backend o)).length)).sum <
        (extract_records
          (backend ((scrapeFetches backend max_results).get ⟨i, hi⟩))).length →
      max_results < (scrapeRecords backend max_results).length := by
  refine ⟨scrape_records_eq backend max_results, ?_⟩
  intro i hi hover
  set F := scrapeFetches backend max_results with hF
  set g := fun o => (extract_records (backend o)).length with hg
  have hlen : (scrapeRecords backend max_results).length = (F.map g).sum := by
    rw [scrape_records_eq backend max_results, List.length_flatten, List.map_map]
    rfl
  have hsplit : F = F.take (i + 1) ++ F.drop (i + 1) := (List.take_append_drop (i + 1) F).symm
  have htake : F.take (i + 1) = F.take i ++ [F.get ⟨i, hi⟩] := by
    rw [List.take_succ, List.getElem?_eq_getElem hi]
    simp
  have hsum : (F.map g).sum =
      ((F.take i).map g).sum + g (F.get ⟨i, hi⟩) + ((F.drop (i + 1)).map g).sum := by
    conv_lhs => rw [hsplit]
    rw [List.map_append, List.sum_append, htake, List.map_append, List.sum_append]
    simp
  rw [hlen, hsum]
  have hover' : max_results - ((F.take i).map g).sum < g (F.get ⟨i, hi⟩) := hover
  omega

/-- Witness for `cap_overshoot`: `max_results = 50` with a 100-record
first page accumulates 100 records. -/
theorem cap_overshoot_witness : 50 < (scrapeRecords backendBig 50).length :=
  (cap_overshoot backendBig 50).2 0 (by decide) (by decide)

/-! ## C4 and C10: deduplication keeps the first occurrence per key -/

/-- Characterization of `dropDupsBy`: filtering the deduplicated list by
one key value `k` yields nothing if `k` was already seen, and otherwise
the first input record keyed `k` (if any). -/
theorem filter_dropDupsBy (k : Option String) :
    ∀ (rs : List Record) (seen : List (Option String)),
      (dropDupsBy rs seen).filter (fun r => r.notice_id == k) =
        if k ∈ seen then [] else (rs.filter (fun r => r.notice_id == k)).take 1 := by
  intro rs
  induction rs with
  | nil =>
    intro seen
    simp [dropDupsBy]
  | cons r rs ih =>
    intro seen
    by_cases hk : r.notice_id = k
    · subst hk
      by_cases hmem : r.notice_id ∈ seen
      · rw [dropDupsBy, if_pos hmem, ih]
        simp [hmem, List.filter_cons]
      · rw [dropDupsBy, if_neg hmem]
        rw [List.filter_cons_of_pos (by simp), ih]
        simp [hmem, List.filter_cons]
    · by_cases hmem : r.notice_id ∈ seen
      · rw [dropDupsBy, if_pos hmem, ih]
        simp [List.filter_cons, hk]
      · rw [dropDupsBy, if_neg hmem]
        rw [List.filter_cons_of_neg (by simp [hk]), ih]
        simp [List.filter_cons, hk, List.mem_cons, Ne.symm hk]

/-- **C4**: when the first profile's table holds exactly one record `r1`
with notice identifier `"ABC123"` and the second profile's table exactly
one such record (any fields), the combined deduplicated table holds
exactly one record keyed `"ABC123"`, and it is `r1` — the record of the
profile that ran first. -/
theorem dedup_first_wins (t1 t2 : List Record) (r1 : Record)
    (h1 : t1.filter (fun r => r.notice_id == some "ABC123") = [r1])
    (h2 : (t2.filter (fun r => r.notice_id == some "ABC123")).length = 1) :
    ∃ res, combineTables [t1, t2] = .ok res ∧
      res.filter (fun r => r.notice_id == some "ABC123") = [r1] := by
  have ht1 : t1 ≠ [] := by
    intro h
    subst h
    simp at h1
  have ht2 : t2 ≠ [] := by
    intro h
    subst h
    simp at h2
  have hcomb : combineTables [t1, t2] = .ok (dropDupsBy (t1 ++ t2) []) := by
    simp [combineTables, drop_duplicates, ht1, ht2]
  refine ⟨dropDupsBy (t1 ++ t2) [], hcomb, ?_⟩
  rw [filter_dropDupsBy (some "ABC123") (t1 ++ t2) []]
  simp [List.filter_append, h1, List.take_succ_cons]

/-- First-profile record with notice identifier `"ABC123"`. -/
def recFirst : Record := extractRecord { noticeId := some "ABC123", title := some "first" }

/-- Second-profile record with the same identifier, different title. -/
def recSecond : Record := extractRecord { noticeId := some "ABC123", title := some "second" }

/-- Witness for `dedup_first_wins` on two one-row tables. -/
theorem dedup_first_wins_witness :
    ∃ res, combineTables [[recFirst], [recSecond]] = .ok res ∧
      res.filter (fun r => r.notice_id == some "ABC123") = [recFirst] :=
  dedup_first_wins [recFirst] [recSecond] recFirst (by decide) (by decide)

/-- **C10**: in any successful combined table, the records lacking a
notice identifier collapse to the first identifier-less record of the
concatenation — at most one survives, however many profiles contributed
identifier-less records. -/
theorem dedup_missing_ids (all_dfs : List (List Record)) (res : List Record)
    (h : combineTables all_dfs = .ok res) :
    res.filter (fun r => r.notice_id == none) =
      ((all_dfs.filter fun df => !df.isEmpty).flatten.filter
        fun r => r.notice_id == none).take 1 ∧
    (res.filter fun r => r.notice_id == none).length ≤ 1 := by
  have hres : res = dropDupsBy (all_dfs.filter fun df => !df.isEmpty).flatten [] := by
    by_cases hne : ((all_dfs.filter fun df => !df.isEmpty).isEmpty : Bool)
    · simp only [combineTables, hne] at h
      simp at h
    · simp only [combineTables, hne] at h
      simp [drop_duplicates] at h
      exact h.symm
  subst hres
  rw [filter_dropDupsBy none _ []]
  simp only [List.not_mem_nil, if_false]
  exact ⟨trivial, List.length_take_le 1 _⟩

/-- An identifier-less record. -/
def recAnon1 : Record := extractRecord {}

/-- Another identifier-less record, different title. -/
def recAnon2 : Record := extractRecord { title := some "x" }

/-- Witness for `dedup_missing_ids` on two one-row identifier-less tables. -/
theorem dedup_missing_ids_witness :
    ((drop_duplicates ([recAnon1] ++ [recAnon2])).filter
      fun r => r.notice_id == none).length ≤ 1 :=
  (dedup_missing_ids [[recAnon1], [recAnon2]]
    (drop_duplicates ([recAnon1] ++ [recAnon2])) rfl).2

end SamScraper
